import Mathlib

/-!
Shallow embedding of `src/main.py` (class `APIDataFetcher`): the JSON data
model, the retry wrapper `_make_request`, the response interpreter
(`_extract_data_from_response`, `_detect_pagination_info`), the payload
builder `_prepare_pagination_payload`, and the paginated fetch driver
`fetch_all_data`.  Machine behaviour (HTTP, `requests` exceptions, Python
truthiness and `dict` semantics) is made explicit; network responses are
supplied by oracle functions so that theorems quantify over all servers.
-/

namespace Scraper

/-- JSON values as decoded by `response.json()`.  JSON numbers are modelled
as integers (the code only ever compares them with the integer page
counter). -/
inductive Json where
  | null
  | bool (b : Bool)
  | num (n : Int)
  | str (s : String)
  | arr (elems : List Json)
  | obj (fields : List (String × Json))

/-- Python exceptions the fetcher can raise: a transport-level
`RequestException` (connection error / timeout), an `HTTPError` carrying a
status code (raised explicitly for 401 at line 50 and by
`raise_for_status()` at line 56), and a `TypeError` (raised by the `in`
membership test on non-container response bodies). -/
inductive PyError where
  | transport
  | httpError (code : Nat)
  | typeError

/-- First-match association-list lookup, the semantics of `d[key]` /
`key in d` on a Python dict (keys are unique in a real dict, so
first-match is exact). -/
def lookupKey : List (String × Json) → String → Option Json
  | [], _ => none
  | (k, v) :: rest, key => if k = key then some v else lookupKey rest key

/-- Python `d[key] = v`: replace the binding in place if present, else
append it. -/
def setKey : List (String × Json) → String → Json → List (String × Json)
  | [], key, v => [(key, v)]
  | (k, w) :: rest, key, v =>
      if k = key then (key, v) :: rest else (k, w) :: setKey rest key v

/-- `key in body` / `body[key]` for a JSON value: only objects have keys. -/
def Json.getKey? : Json → String → Option Json
  | .obj fields, key => lookupKey fields key
  | _, _ => none

/-- Python truthiness of a decoded JSON value (`if not response:`). -/
def Json.truthy : Json → Bool
  | .null => false
  | .bool b => b
  | .num n => n != 0
  | .str s => s != ""
  | .arr elems => !elems.isEmpty
  | .obj fields => !fields.isEmpty

/-- Python `pat in s` for strings: substring test. -/
def strContainsSub (s pat : String) : Bool :=
  (List.range (s.length + 1)).any (fun i => pat.isPrefixOf (s.drop i))

/-- Python numeric coercion used by `page >= total_pages`: ints compare
directly, bools compare as 0/1, anything else raises `TypeError`. -/
def Json.asPyNum? : Json → Option Int
  | .num n => some n
  | .bool b => some (if b then 1 else 0)
  | _ => none

/-- `_prepare_pagination_payload` (src/main.py lines 21-34): page 0 returns
a copy of the base payload with no pagination parameters; later pages add
`page` and `limit` keys. -/
def preparePaginationPayload (basePayload : List (String × Json))
    (page : Nat) (pageSize : Nat) : List (String × Json) :=
  if page = 0 then basePayload
  else setKey (setKey basePayload ("page") (.num page)) ("limit") (.num pageSize)

/-- Outcome of one HTTP POST attempt inside `_make_request`: either the
send itself fails (connection error / timeout) or a response with a status
code and decoded JSON body comes back. -/
inductive ReqOutcome where
  | transportFail
  | status (code : Nat) (body : Json)

/-- One iteration of the `try:` block of `_make_request` (lines 39-62):
a transport failure raises `RequestException`; status 401 raises
`HTTPError` explicitly (line 50); `raise_for_status()` raises `HTTPError`
for any 4xx/5xx; otherwise the decoded body is returned.  All of these
exception classes derive from `RequestException`, which is what the
`except` clause at line 63 catches. -/
def classifyAttempt : ReqOutcome → Except PyError Json
  | .transportFail => .error .transport
  | .status code body =>
      if code = 401 then .error (.httpError 401)
      else if 400 ≤ code ∧ code < 600 then .error (.httpError code)
      else .ok body

/-- Result of `_make_request`: a returned body, a (re)raised exception, or
the `return None` fall-through reached only when the `for` loop runs zero
iterations. -/
inductive ReqResult where
  | ok (body : Json)
  | raised (e : PyError)
  | noneReturn

/-- The `for attempt in range(retries)` loop of `_make_request`
(lines 38-74), iterating over the remaining attempt indices.  Returns the
result together with the number of attempts performed and the list of
backoff sleeps (in seconds) executed.  A failed attempt `n` that is not the
last one sleeps `2 ^ n` seconds (line 71) and continues; the last failure
re-raises (line 74). -/
def makeRequestGo (outcome : Nat → ReqOutcome) (retries : Nat) :
    List Nat → ReqResult × Nat × List Nat
  | [] => (.noneReturn, 0, [])
  | attempt :: rest =>
    match classifyAttempt (outcome attempt) with
    | .ok body => (.ok body, 1, [])
    | .error e =>
      if attempt < retries - 1 then
        let r := makeRequestGo outcome retries rest
        (r.1, r.2.1 + 1, 2 ^ attempt :: r.2.2)
      else (.raised e, 1, [])

/-- `_make_request` (src/main.py lines 36-75): run the attempt loop over
`range(retries)`. -/
def makeRequest (outcome : Nat → ReqOutcome) (retries : Nat) :
    ReqResult × Nat × List Nat :=
  makeRequestGo outcome retries (List.range retries)

/-- The candidate data-field names of `_extract_data_from_response`
(src/main.py line 84), in source order. -/
def data_keys : List String :=
  ["data", "results", "items", "users", "records", "content"]

/-- The `for field in data_fields` loop of `_extract_data_from_response`
(lines 86-88): the first key that is present and holds a list wins. -/
def firstDataArr (response : Json) : List String → Option (List Json)
  | [] => none
  | k :: rest =>
    match response.getKey? k with
    | some (.arr xs) => some xs
    | _ => firstDataArr response rest

/-- `_extract_data_from_response` (src/main.py lines 77-92).  A list body
is returned as is; an object body yields the first recognised data field
holding a list, else the whole object as a one-element list.  For a string
body, `field in response` is Python's substring test and `response[field]`
then raises `TypeError`; for any other non-container body the membership
test itself raises `TypeError`. -/
def extractDataFromResponse (response : Json) : Except PyError (List Json) :=
  match response with
  | .arr xs => .ok xs
  | .obj _ =>
    match firstDataArr response data_keys with
    | some xs => .ok xs
    | none => .ok [response]
  | .str s =>
    if data_keys.any (fun k => strContainsSub s k) then .error .typeError
    else .ok []
  | _ => .error .typeError

/-- The `pagination_info` dict built by `_detect_pagination_info`
(src/main.py lines 96-103).  `has_more` is initialised to Python `False`
and later overwritten with the raw JSON value of a matched key; the four
other slots start as `None`. -/
structure PaginationInfo where
  has_pagination : Bool
  total_pages : Option Json
  total_records : Option Json
  current_page : Option Json
  page_size : Option Json
  has_more : Json

/-- The freshly initialised `pagination_info` dict (lines 96-103). -/
def initPaginationInfo : PaginationInfo :=
  { has_pagination := false, total_pages := none, total_records := none,
    current_page := none, page_size := none, has_more := .bool false }

/-- Candidate keys for `total_pages` (src/main.py line 111). -/
def total_pages_keys : List String :=
  ["totalPages", "total_pages", "pageCount", "pages"]

/-- Candidate keys for `total_records` (line 112). -/
def total_records_keys : List String :=
  ["totalRecords", "total", "totalCount", "count", "totalElements"]

/-- Candidate keys for `current_page` (line 113). -/
def current_page_keys : List String :=
  ["currentPage", "page", "pageNumber"]

/-- Candidate keys for `page_size` (line 114). -/
def page_size_keys : List String :=
  ["pageSize", "limit", "size", "perPage"]

/-- Candidate keys for `has_more` (line 115). -/
def has_more_keys : List String :=
  ["hasMore", "has_more", "hasNext", "has_next"]

/-- The inner `for field in possible_fields` loop of
`_detect_pagination_info` (lines 119-122): every present key overwrites
the slot (the loop has no `break`, so a later match overrides an earlier
one) and flips `has_pagination` to `True`. -/
def scanGroup (response : Json) (keys : List String)
    (st : Option Json × Bool) : Option Json × Bool :=
  keys.foldl (fun acc k =>
    match response.getKey? k with
    | some v => (some v, true)
    | none => acc) st

/-- `_detect_pagination_info` (src/main.py lines 94-124).  A list body gets
the default info; an object body is scanned group by group.  For a string
body, the first candidate key occurring as a substring makes
`response[field]` raise `TypeError`; for any other non-container body the
membership test raises `TypeError` at once. -/
def detectPaginationInfo (response : Json) : Except PyError PaginationInfo :=
  match response with
  | .arr _ => .ok initPaginationInfo
  | .obj _ =>
    let s1 := scanGroup response total_pages_keys (none, false)
    let s2 := scanGroup response total_records_keys (none, s1.2)
    let s3 := scanGroup response current_page_keys (none, s2.2)
    let s4 := scanGroup response page_size_keys (none, s3.2)
    let s5 := scanGroup response has_more_keys (none, s4.2)
    .ok { has_pagination := s5.2, total_pages := s1.1, total_records := s2.1,
          current_page := s3.1, page_size := s4.1,
          has_more := s5.1.getD (.bool false) }
  | .str s =>
    if (total_pages_keys ++ total_records_keys ++ current_page_keys ++
        page_size_keys ++ has_more_keys).any (fun k => strContainsSub s k)
    then .error .typeError
    else .ok initPaginationInfo
  | _ => .error .typeError

/-- Python `x is False` for a value decoded from JSON: true exactly for the
boolean `False` singleton (used at line 185 on `pagination_info['has_more']`,
whose initial value is `False`). -/
def isPyFalse : Json → Bool
  | .bool false => true
  | _ => false

/-- A server oracle: the observable behaviour of `self._make_request` on a
given payload — an exception propagating out, the `None` fall-through, or a
decoded JSON body.  Quantifying over these functions quantifies over all
remote servers (and all retry outcomes). -/
def RequestFun : Type :=
  List (String × Json) → Except PyError (Option Json)

/-- The `while page < max_pages` loop of `fetch_all_data` (src/main.py
lines 156-191), as structural recursion on the remaining iteration budget
`fuel = max_pages - page` (the loop increments `page` by exactly one per
iteration, so `fuel = 0` is exactly the exit condition `page ≥ max_pages`).
Each iteration: increment `page`, request the page payload, stop on a falsy
response, extract the records, stop on an empty page, append, stop on a
short page, then stop if the detected `has_more` is Python `False` or the
incremented `page` has reached a truthy numeric `total_pages`. -/
def fetchLoopGo (request : RequestFun) (basePayload : List (String × Json))
    (pageSize : Nat) : Nat → Nat → List Json → Except PyError (List Json)
  | 0, _, all_data => .ok all_data
  | fuel + 1, page, all_data =>
    match request (preparePaginationPayload basePayload (page + 1) pageSize) with
    | .error e => .error e
    | .ok none => .ok all_data
    | .ok (some response) =>
      if !response.truthy then .ok all_data
      else
        match extractDataFromResponse response with
        | .error e => .error e
        | .ok data =>
          if data.isEmpty then .ok all_data
          else
            if data.length < pageSize then .ok (all_data ++ data)
            else
              match detectPaginationInfo response with
              | .error e => .error e
              | .ok pinfo =>
                if isPyFalse pinfo.has_more then .ok (all_data ++ data)
                else
                  match pinfo.total_pages with
                  | none =>
                    fetchLoopGo request basePayload pageSize fuel (page + 1)
                      (all_data ++ data)
                  | some tp =>
                    if tp.truthy then
                      match tp.asPyNum? with
                      | none => .error .typeError
                      | some n =>
                        if n ≤ ((page + 1 : Nat) : Int) then .ok (all_data ++ data)
                        else
                          fetchLoopGo request basePayload pageSize fuel (page + 1)
                            (all_data ++ data)
                    else
                      fetchLoopGo request basePayload pageSize fuel (page + 1)
                        (all_data ++ data)

/-- `fetch_all_data` (src/main.py lines 126-194).  The accumulator
`self.all_data` held by the fetcher before the call is the explicit
argument `all_data0`; line 128 resets it to `[]` before anything else.
Returns the pair (returned list, final `self.all_data`) on normal return;
an exception propagates as `.error`.  The first request (page 0) carries
the bare base payload; if it yields `None` the call returns `[]`
(line 139); otherwise its records are appended and, unless pagination
metadata was detected and the page was full, returned at once (lines
149-151); else the page loop runs with `page` starting at 0. -/
def fetchAllData (request : RequestFun) (basePayload : List (String × Json))
    (pageSize : Nat) (maxPages : Nat) (all_data0 : List Json) :
    Except PyError (List Json × List Json) :=
  let all_data : List Json := []
  match request (preparePaginationPayload basePayload 0 pageSize) with
  | .error e => .error e
  | .ok none => .ok ([], all_data)
  | .ok (some response) =>
    match extractDataFromResponse response with
    | .error e => .error e
    | .ok data =>
      match detectPaginationInfo response with
      | .error e => .error e
      | .ok pinfo =>
        if !pinfo.has_pagination || data.length < pageSize then
          .ok (all_data ++ data, all_data ++ data)
        else
          match fetchLoopGo request basePayload pageSize maxPages 0
              (all_data ++ data) with
          | .error e => .error e
          | .ok final => .ok (final, final)

/-- Companion of `fetchLoopGo` that records, instead of the flat
accumulator, the list of per-page record arrays appended by the loop, in
page order.  It follows the spec's reading of the loop ("the returned list
is the concatenation of the page record arrays"); the refinement theorem
relates it to `fetchLoopGo`. -/
def fetchChunksGo (request : RequestFun) (basePayload : List (String × Json))
    (pageSize : Nat) : Nat → Nat → Except PyError (List (List Json))
  | 0, _ => .ok []
  | fuel + 1, page =>
    match request (preparePaginationPayload basePayload (page + 1) pageSize) with
    | .error e => .error e
    | .ok none => .ok []
    | .ok (some response) =>
      if !response.truthy then .ok []
      else
        match extractDataFromResponse response with
        | .error e => .error e
        | .ok data =>
          if data.isEmpty then .ok []
          else
            if data.length < pageSize then .ok [data]
            else
              match detectPaginationInfo response with
              | .error e => .error e
              | .ok pinfo =>
                if isPyFalse pinfo.has_more then .ok [data]
                else
                  match pinfo.total_pages with
                  | none =>
                    (fetchChunksGo request basePayload pageSize fuel (page + 1)).map
                      (fun cs => data :: cs)
                  | some tp =>
                    if tp.truthy then
                      match tp.asPyNum? with
                      | none => .error .typeError
                      | some n =>
                        if n ≤ ((page + 1 : Nat) : Int) then .ok [data]
                        else
                          (fetchChunksGo request basePayload pageSize fuel
                              (page + 1)).map (fun cs => data :: cs)
                    else
                      (fetchChunksGo request basePayload pageSize fuel
                          (page + 1)).map (fun cs => data :: cs)

/-- Companion of `fetchAllData` recording the per-page record arrays of a
whole call (the first page's array followed by the loop's arrays). -/
def fetchPageChunks (request : RequestFun) (basePayload : List (String × Json))
    (pageSize : Nat) (maxPages : Nat) : Except PyError (List (List Json)) :=
  match request (preparePaginationPayload basePayload 0 pageSize) with
  | .error e => .error e
  | .ok none => .ok []
  | .ok (some response) =>
    match extractDataFromResponse response with
    | .error e => .error e
    | .ok data =>
      match detectPaginationInfo response with
      | .error e => .error e
      | .ok pinfo =>
        if !pinfo.has_pagination || data.length < pageSize then .ok [data]
        else
          (fetchChunksGo request basePayload pageSize maxPages 0).map
            (fun cs => data :: cs)

/-- The value assigned to a metadata slot by the last candidate key of a
group that is present in the body (later list entries take precedence) —
the semantics the break-less scan of `_detect_pagination_info` actually
implements. -/
def lastHit (response : Json) : List String → Option Json
  | [] => none
  | k :: rest =>
    match lastHit response rest with
    | some v => some v
    | none => response.getKey? k

/-- Modelled from the spec's words ("first match per group wins"): the
value of the first candidate key of a group present in the body.  Used to
compare the specified detection rule with the implemented one. -/
def firstHit (response : Json) : List String → Option Json
  | [] => none
  | k :: rest =>
    match response.getKey? k with
    | some v => some v
    | none => firstHit response rest

/-- Whether any candidate key of the list is present in the body. -/
def anyKeyPresent (response : Json) (keys : List String) : Bool :=
  keys.any (fun k => (response.getKey? k).isSome)

/-- All pagination candidate keys of every group, in scan order. -/
def allPaginationKeys : List String :=
  total_pages_keys ++ total_records_keys ++ current_page_keys ++
    page_size_keys ++ has_more_keys

/-- A server whose every page is the same one-record array, advertising
`hasMore` on the first page only: the duplicate record is collected twice. -/
def dupServer : RequestFun :=
  fun p =>
    match lookupKey p ("page") with
    | none => .ok (some (.obj [(("data"), .arr [.str ("a")]), (("hasMore"), .bool true)]))
    | some _ => .ok (some (.obj [(("data"), .arr [.str ("a")])]))

/-- A base payload carrying three identifiers under `targets`, as the
batch endpoint payload of `main()` does. -/
def targetsPayload : List (String × Json) :=
  [(("targets"), .arr [.str ("a"), .str ("b"), .str ("c")])]

/-- A server answering only the page-0 payload (the one without pagination
keys) and failing every other request: any successful fetch against it made
exactly one request. -/
def onlyFirstServer : RequestFun :=
  fun p =>
    match lookupKey p ("page") with
    | none => .ok (some (.arr []))
    | some _ => .error .transport

/-- A server answering every request with the same one-element bare
array. -/
def singleArrayServer : RequestFun :=
  fun _ => .ok (some (.arr [.num 1]))

/-- A full page of `pageSize` records with `hasMore: true` and no
total-pages metadata. -/
def fullPageResponse (pageSize : Nat) : Json :=
  .obj [(("data"), .arr (List.replicate pageSize (.str ("rec")))),
        (("hasMore"), .bool true)]

/-- A stub server producing unlimited full pages. -/
def unlimitedServer (pageSize : Nat) : RequestFun :=
  fun _ => .ok (some (fullPageResponse pageSize))

/-- One unfolding step of the attempt loop on a non-empty attempt list. -/
theorem makeRequestGo_cons (outcome : Nat → ReqOutcome) (retries attempt : Nat)
    (rest : List Nat) :
    makeRequestGo outcome retries (attempt :: rest) =
      match classifyAttempt (outcome attempt) with
      | .ok body => (.ok body, 1, [])
      | .error e =>
        if attempt < retries - 1 then
          ((makeRequestGo outcome retries rest).1,
            (makeRequestGo outcome retries rest).2.1 + 1,
            2 ^ attempt :: (makeRequestGo outcome retries rest).2.2)
        else (.raised e, 1, []) := rfl

/-- When every attempt of a suffix `[a, a+1, ..., a+n-1]` of the attempt
range fails, the loop performs all `n` remaining attempts, sleeps
`2 ^ k` seconds after every failed attempt `k` but the last, and re-raises
the exception of the final attempt. -/
theorem makeRequestGo_allFail (outcome : Nat → ReqOutcome) (e : Nat → PyError)
    (retries : Nat)
    (h : ∀ i, i < retries → classifyAttempt (outcome i) = .error (e i)) :
    ∀ (n a : Nat), a + n = retries → 0 < n →
      makeRequestGo outcome retries (List.range' a n) =
        (.raised (e (retries - 1)), n,
          (List.range' a (n - 1)).map (fun k => 2 ^ k)) := by
  intro n
  induction n with
  | zero => intro a _ h0; exact absurd h0 (lt_irrefl 0)
  | succ m ih =>
    intro a ha _
    have hlt : a < retries := by omega
    rw [show List.range' a (m + 1) = a :: List.range' (a + 1) m from rfl,
      makeRequestGo_cons, h a hlt]
    dsimp only
    cases m with
    | zero =>
      have hae : a = retries - 1 := by omega
      have hnl : ¬ a < retries - 1 := by omega
      subst hae
      rw [if_neg hnl]
      rfl
    | succ m1 =>
      have hlt2 : a < retries - 1 := by omega
      have ihr := ih (a + 1) (by omega) (by omega)
      rw [if_pos hlt2, ihr]
      rfl

/-- C3 (amended): `_make_request` retries every failed attempt — transport
failures and HTTP error statuses alike — up to the attempt count, sleeping
`2 ^ n` seconds after 0-indexed failed attempt `n`; when all attempts fail
it re-raises the exception of the last attempt instead of returning a
value. -/
theorem c3_amended (outcome : Nat → ReqOutcome) (e : Nat → PyError)
    (retries : Nat) (h0 : 0 < retries)
    (h : ∀ i, i < retries → classifyAttempt (outcome i) = .error (e i)) :
    makeRequest outcome retries =
      (.raised (e (retries - 1)), retries,
        (List.range (retries - 1)).map (fun k => 2 ^ k)) := by
  have hgo := makeRequestGo_allFail outcome e retries h retries 0 (by omega) h0
  simp only [makeRequest, List.range_eq_range']
  exact hgo

/-- C3 (witness): three transport failures with a retry budget of 3: three
attempts, sleeps of 1 and 2 seconds, then the transport exception is
re-raised. -/
theorem c3_witness :
    0 < 3 ∧
    makeRequest (fun _ => .transportFail) 3 = (.raised .transport, 3, [1, 2]) := by
  refine ⟨by decide, ?_⟩
  have := c3_amended (fun _ => .transportFail) (fun _ => .transport) 3
    (by decide) (fun i _ => rfl)
  simpa using this

/-- C3 (counterexample): a first attempt answered with HTTP 500 — not a
transport-level failure — is retried anyway (two attempts, one backoff
sleep), refuting "retries only for transport-level failures". -/
theorem c3_counterexample :
    makeRequest (fun i => if i = 0 then .status 500 .null else .status 200 (.arr [])) 3 =
      (.ok (.arr []), 2, [1]) ∧
    classifyAttempt (.status 500 .null) = .error (.httpError 500) ∧
    PyError.httpError 500 ≠ .transport :=
  ⟨rfl, rfl, fun hcontra => PyError.noConfusion hcontra⟩

/-- C1: a request answered with HTTP 401 on every attempt.  The explicit
`HTTPError` raised for 401 at line 50 is itself a `RequestException`, so
the handler at line 63 catches it: the session performs all three
attempts, sleeping the 1s and 2s backoff delays, before the 401 error
finally propagates — not the immediate, retry-free abort the spec
describes. -/
theorem c1_eval :
    makeRequest (fun _ => .status 401 .null) 3 =
      (.raised (.httpError 401), 3, [1, 2]) ∧
    (3 : Nat) ≠ 1 :=
  ⟨rfl, by decide⟩

/-- C7: a bare-array response body is returned unchanged as the record
list, and its detected pagination info is the default one, whose
`has_pagination` is `false`. -/
theorem c7_arrayBody (xs : List Json) :
    extractDataFromResponse (.arr xs) = .ok xs ∧
    detectPaginationInfo (.arr xs) = .ok initPaginationInfo ∧
    initPaginationInfo.has_pagination = false :=
  ⟨rfl, rfl, rfl⟩

/-- C8: on the non-container body `5`, the membership test `field in
response` raises `TypeError` in both the extractor and the detector, even
though the extractor's own fall-through (`return [response] if ... else []`)
shows the intent to degrade rather than abort. -/
theorem c8_eval :
    extractDataFromResponse (Json.num 5) = .error .typeError ∧
    detectPaginationInfo (Json.num 5) = .error .typeError :=
  ⟨rfl, rfl⟩

/-- The break-less candidate scan of one group equals: the value of the
last present candidate (falling back to the slot's prior value), paired
with the accumulated `has_pagination` flag or-ed with "some candidate is
present". -/
theorem scanGroup_eq (response : Json) :
    ∀ (keys : List String) (init : Option Json) (b : Bool),
      scanGroup response keys (init, b) =
        ((lastHit response keys).elim init some,
          b || anyKeyPresent response keys) := by
  intro keys
  induction keys with
  | nil => intro init b; simp [scanGroup, lastHit, anyKeyPresent]
  | cons k rest ih =>
    intro init b
    rw [show scanGroup response (k :: rest) (init, b) =
        scanGroup response rest
          (match response.getKey? k with
           | some v => (some v, true)
           | none => (init, b)) from rfl]
    cases hk : response.getKey? k with
    | some v =>
      rw [ih (some v) true]
      cases hl : lastHit response rest with
      | some w => simp [lastHit, hl, anyKeyPresent, hk]
      | none => simp [lastHit, hl, anyKeyPresent, hk]
    | none =>
      rw [ih init b]
      cases hl : lastHit response rest with
      | some w => simp [lastHit, hl, anyKeyPresent, hk]
      | none => simp [lastHit, hl, anyKeyPresent, hk]

/-- C5 (amended): for an object body, each metadata slot is filled from
the LAST candidate key of its group present in the body (later candidates
in the listed order override earlier ones, since the scan has no `break`),
and `has_pagination` is `true` exactly when at least one candidate key of
any group is present. -/
theorem c5_amended (fields : List (String × Json)) :
    detectPaginationInfo (.obj fields) =
      .ok { has_pagination := anyKeyPresent (.obj fields) allPaginationKeys,
            total_pages := lastHit (.obj fields) total_pages_keys,
            total_records := lastHit (.obj fields) total_records_keys,
            current_page := lastHit (.obj fields) current_page_keys,
            page_size := lastHit (.obj fields) page_size_keys,
            has_more := (lastHit (.obj fields) has_more_keys).getD (.bool false) } := by
  have helim : ∀ m : Option Json, m.elim none some = m := by
    intro m; cases m <;> rfl
  show Except.ok _ = _
  simp only [scanGroup_eq, helim]
  simp [allPaginationKeys, anyKeyPresent, List.any_append, Bool.or_assoc]

/-- C5 (counterexample): in a body carrying both `totalPages: 5` and
`pages: 7`, the detector fills `total_pages` with 7 — the value of the
LAST present candidate — while the first present candidate (`totalPages`,
the claim's choice) holds 5. -/
theorem c5_counterexample :
    detectPaginationInfo (.obj [(("totalPages"), .num 5), (("pages"), .num 7)]) =
      .ok { has_pagination := true, total_pages := some (.num 7),
            total_records := none, current_page := none, page_size := none,
            has_more := .bool false } ∧
    firstHit (.obj [(("totalPages"), .num 5), (("pages"), .num 7)])
      total_pages_keys = some (.num 5) ∧
    (7 : Int) ≠ 5 :=
  ⟨rfl, rfl, by decide⟩

/-- Assigning one key of a dict leaves the lookup of every other key
unchanged. -/
theorem lookupKey_setKey_ne (l : List (String × Json)) (key : String)
    (v : Json) (k : String) (h : k ≠ key) :
    lookupKey (setKey l key v) k = lookupKey l k := by
  induction l with
  | nil =>
    have hne : ¬ key = k := fun hk => h hk.symm
    simp [setKey, lookupKey, hne]
  | cons p rest ih =>
    obtain ⟨k1, w⟩ := p
    by_cases h1 : k1 = key
    · subst h1
      have hne : ¬ k1 = k := fun hk => h hk.symm
      simp [setKey, lookupKey, hne]
    · simp [setKey, lookupKey, h1, ih]

/-- C6 (amended): no batch partitioning exists.  The payload builder never
touches any key other than `page` and `limit`, so every request of a fetch
carries the caller's `targets` list (and every other base key) whole and
unchanged; the number of requests is governed by pagination detection, not
by `ceil(N/B)`. -/
theorem c6_amended (basePayload : List (String × Json)) (page pageSize : Nat)
    (k : String) (h1 : k ≠ "page") (h2 : k ≠ "limit") :
    lookupKey (preparePaginationPayload basePayload page pageSize) k =
      lookupKey basePayload k := by
  by_cases hp : page = 0
  · simp [preparePaginationPayload, hp]
  · simp only [preparePaginationPayload, if_neg hp]
    rw [lookupKey_setKey_ne _ _ _ _ h2, lookupKey_setKey_ne _ _ _ _ h1]

/-- C6 (witness): the `targets` entry of the page-1 payload is the base
payload's `targets` entry, untouched. -/
theorem c6_witness :
    ("targets" : String) ≠ "page" ∧ ("targets" : String) ≠ "limit" ∧
    lookupKey (preparePaginationPayload targetsPayload 1 5) ("targets") =
      lookupKey targetsPayload ("targets") :=
  ⟨by decide, by decide, c6_amended targetsPayload 1 5 _ (by decide) (by decide)⟩

/-- C6 (counterexample): with 3 identifiers and `B = 2`, a fetch against a
server that only answers the page-0 payload (and fails any other payload)
succeeds: exactly one request was issued — not `ceil(3/2) = 2` — and its
payload carried all 3 targets, more than `B`. -/
theorem c6_counterexample :
    preparePaginationPayload targetsPayload 0 2 = targetsPayload ∧
    lookupKey targetsPayload ("targets") =
      some (.arr [.str ("a"), .str ("b"), .str ("c")]) ∧
    ¬ (3 : Nat) ≤ 2 ∧
    fetchAllData onlyFirstServer targetsPayload 2 1000 [] = .ok ([], []) :=
  ⟨rfl, rfl, by decide, rfl⟩

/-- C4 (amended): the first request carries the base payload unchanged —
no pagination parameters at all, in particular no `limit` key.  Whenever
the first response yields no detected pagination metadata or a record
count strictly below `page_size`, the fetch returns immediately with
exactly that response's records, whatever the server would answer to any
further payload (the conclusion holds for every request oracle agreeing on
the base payload, so no further request can matter); no truncation flag
exists on the result. -/
theorem c4_amended (request : RequestFun) (basePayload : List (String × Json))
    (pageSize maxPages : Nat) (all_data0 : List Json) (response : Json)
    (data : List Json) (pinfo : PaginationInfo)
    (h1 : request basePayload = .ok (some response))
    (h2 : extractDataFromResponse response = .ok data)
    (h3 : detectPaginationInfo response = .ok pinfo)
    (h4 : pinfo.has_pagination = false ∨ data.length < pageSize) :
    preparePaginationPayload basePayload 0 pageSize = basePayload ∧
    fetchAllData request basePayload pageSize maxPages all_data0 =
      .ok (data, data) := by
  have hp : preparePaginationPayload basePayload 0 pageSize = basePayload := by
    simp [preparePaginationPayload]
  refine ⟨hp, ?_⟩
  unfold fetchAllData
  rw [hp, h1]
  dsimp only
  rw [h2]
  dsimp only
  rw [h3]
  dsimp only
  rcases h4 with h4 | h4
  · simp [h4]
  · simp [h4]

/-- C4 (witness): a first response that is a bare one-record array (so no
pagination is detected) is returned at once. -/
theorem c4_witness :
    preparePaginationPayload [] 0 7 = [] ∧
    fetchAllData (fun _ => .ok (some (.arr [.num 9]))) [] 7 9 [] =
      .ok ([.num 9], [.num 9]) :=
  c4_amended (fun _ => .ok (some (.arr [.num 9]))) [] 7 9 []
    (.arr [.num 9]) [.num 9] initPaginationInfo rfl rfl rfl (Or.inl rfl)

/-- C4 (counterexample): the first probe's payload contains no `limit` key
at all — the claim requires it to carry `limit = maxSingleLimit`. -/
theorem c4_counterexample :
    preparePaginationPayload [(("query"), Json.null)] 0 100 =
      [(("query"), Json.null)] ∧
    lookupKey (preparePaginationPayload [(("query"), Json.null)] 0 100)
      ("limit") = none :=
  ⟨rfl, rfl⟩

/-- The flat accumulator computed by the page loop is the starting
accumulator followed by the concatenation of the per-page record arrays
the loop appends. -/
theorem fetchLoopGo_eq_chunks (request : RequestFun)
    (basePayload : List (String × Json)) (pageSize : Nat) :
    ∀ (fuel page : Nat) (all_data : List Json),
      fetchLoopGo request basePayload pageSize fuel page all_data =
        (fetchChunksGo request basePayload pageSize fuel page).map
          (fun cs => all_data ++ cs.flatten) := by
  intro fuel
  induction fuel with
  | zero =>
    intro page all_data
    simp [fetchLoopGo, fetchChunksGo, Except.map]
  | succ fuel ih =>
    intro page all_data
    simp only [fetchLoopGo, fetchChunksGo]
    cases hreq : request (preparePaginationPayload basePayload (page + 1) pageSize) with
    | error e => rfl
    | ok o =>
      cases o with
      | none => simp [Except.map]
      | some response =>
        dsimp only
        cases ht : response.truthy with
        | false => simp [Except.map]
        | true =>
          simp only [Bool.not_true, Bool.false_eq_true, if_false]
          cases hex : extractDataFromResponse response with
          | error e => rfl
          | ok data =>
            dsimp only
            cases hde : data.isEmpty with
            | true => simp [Except.map]
            | false =>
              simp only [Bool.false_eq_true, if_false]
              by_cases hlen : data.length < pageSize
              · simp [hlen, Except.map]
              · simp only [if_neg hlen]
                cases hdet : detectPaginationInfo response with
                | error e => rfl
                | ok pinfo =>
                  dsimp only
                  cases hm : isPyFalse pinfo.has_more with
                  | true => simp [Except.map]
                  | false =>
                    simp only [Bool.false_eq_true, if_false]
                    cases htp : pinfo.total_pages with
                    | none =>
                      dsimp only
                      rw [ih]
                      cases fetchChunksGo request basePayload pageSize fuel (page + 1) with
                      | error e => rfl
                      | ok cs => simp [Except.map, List.append_assoc]
                    | some tp =>
                      dsimp only
                      cases htt : tp.truthy with
                      | false =>
                        simp only [Bool.false_eq_true, if_false]
                        rw [ih]
                        cases fetchChunksGo request basePayload pageSize fuel (page + 1) with
                        | error e => rfl
                        | ok cs => simp [Except.map, List.append_assoc]
                      | true =>
                        simp only [if_true]
                        cases hnum : tp.asPyNum? with
                        | none => rfl
                        | some n =>
                          dsimp only
                          by_cases hcmp : n ≤ (((page + 1 : Nat) : Int))
                          · have hcmp2 : n ≤ (page : Int) + 1 := by
                              push_cast at hcmp
                              exact hcmp
                            simp [hcmp, hcmp2, Except.map]
                          · simp only [hcmp, if_false]
                            rw [ih]
                            cases fetchChunksGo request basePayload pageSize fuel (page + 1) with
                            | error e => rfl
                            | ok cs => simp [Except.map, List.append_assoc]

/-- A whole `fetch_all_data` call computes the flattened concatenation of
its per-page record arrays, both as the returned list and as the final
accumulator, independently of the pre-call accumulator. -/
theorem fetchAllData_eq_chunks (request : RequestFun)
    (basePayload : List (String × Json)) (pageSize maxPages : Nat)
    (all_data0 : List Json) :
    fetchAllData request basePayload pageSize maxPages all_data0 =
      (fetchPageChunks request basePayload pageSize maxPages).map
        (fun cs => (cs.flatten, cs.flatten)) := by
  unfold fetchAllData fetchPageChunks
  cases hreq : request (preparePaginationPayload basePayload 0 pageSize) with
  | error e => rfl
  | ok o =>
    cases o with
    | none => rfl
    | some response =>
      dsimp only
      cases hex : extractDataFromResponse response with
      | error e => rfl
      | ok data =>
        dsimp only
        cases hdet : detectPaginationInfo response with
        | error e => rfl
        | ok pinfo =>
          dsimp only
          cases hc : (!pinfo.has_pagination || decide (data.length < pageSize)) with
          | true => simp [Except.map]
          | false =>
            simp only [Bool.false_eq_true, if_false]
            rw [fetchLoopGo_eq_chunks]
            cases fetchChunksGo request basePayload pageSize maxPages 0 with
            | error e => rfl
            | ok cs => simp [Except.map]

/-- C2 (amended): the sequence inside a returned fetch result is the
order-preserving concatenation of the per-page record arrays; no
deduplication is applied before returning, so duplicates across pages are
retained in arrival order. -/
theorem c2_amended (request : RequestFun) (basePayload : List (String × Json))
    (pageSize maxPages : Nat) (all_data0 r fin : List Json)
    (h : fetchAllData request basePayload pageSize maxPages all_data0 =
      .ok (r, fin)) :
    ∃ cs, fetchPageChunks request basePayload pageSize maxPages = .ok cs ∧
      r = cs.flatten := by
  have hc := fetchAllData_eq_chunks request basePayload pageSize maxPages all_data0
  rw [h] at hc
  cases hch : fetchPageChunks request basePayload pageSize maxPages with
  | error e => rw [hch] at hc; exact absurd hc (by simp [Except.map])
  | ok cs =>
    rw [hch] at hc
    refine ⟨cs, rfl, ?_⟩
    simpa [Except.map] using congrArg (fun x => x.map Prod.fst) hc

/-- C2 (witness): a fetch whose pages repeat the same record returns the
concatenation of its page chunks. -/
theorem c2_witness :
    fetchAllData dupServer [] 1 5 [] =
      .ok ([.str ("a"), .str ("a")], [.str ("a"), .str ("a")]) ∧
    ∃ cs, fetchPageChunks dupServer [] 1 5 = .ok cs ∧
      [Json.str ("a"), Json.str ("a")] = cs.flatten :=
  ⟨rfl, c2_amended dupServer [] 1 5 [] _ _ rfl⟩

/-- C2 (counterexample): against a server that serves the record `"a"` on
both the first and the second page, the returned sequence is
`["a", "a"]` — it contains a duplicate, so no deduplication was applied. -/
theorem c2_counterexample :
    fetchAllData dupServer [] 1 5 [] =
      .ok ([.str ("a"), .str ("a")], [.str ("a"), .str ("a")]) ∧
    ¬ ([Json.str ("a"), Json.str ("a")].Nodup) :=
  ⟨rfl, fun h => (List.nodup_cons.mp h).1 (List.mem_singleton.mpr rfl)⟩

/-- C10: a call of `fetch_all_data` first resets the accumulator, so its
outcome is independent of whatever a previous call left in
`self.all_data`; on normal return the final accumulator equals the
returned list, and the returned list is exactly the in-order concatenation
of the record arrays extracted from the pages processed during the call. -/
theorem c10_fetchReset (request : RequestFun)
    (basePayload : List (String × Json)) (pageSize maxPages : Nat)
    (a0 a1 r fin : List Json)
    (h : fetchAllData request basePayload pageSize maxPages a0 = .ok (r, fin)) :
    fetchAllData request basePayload pageSize maxPages a1 = .ok (r, fin) ∧
    fin = r ∧
    ∃ cs, fetchPageChunks request basePayload pageSize maxPages = .ok cs ∧
      r = cs.flatten := by
  have h0 := fetchAllData_eq_chunks request basePayload pageSize maxPages a0
  have h1 := fetchAllData_eq_chunks request basePayload pageSize maxPages a1
  rw [h] at h0
  cases hch : fetchPageChunks request basePayload pageSize maxPages with
  | error e => rw [hch] at h0; exact absurd h0 (by simp [Except.map])
  | ok cs =>
    rw [hch] at h0
    have hr : r = cs.flatten ∧ fin = cs.flatten := by
      have := h0
      simp only [Except.map] at this
      exact ⟨congrArg Prod.fst (Except.ok.inj this),
        congrArg Prod.snd (Except.ok.inj this)⟩
    refine ⟨?_, ?_, cs, rfl, hr.1⟩
    · rw [h1, hch]
      simp [Except.map, hr.1, hr.2]
    · rw [hr.1, hr.2]

/-- C10 (witness): a fetch whose first (and only) page is a bare array
returns it, whatever junk a previous call left in the accumulator. -/
theorem c10_witness :
    fetchAllData singleArrayServer [] 100 1000 [] =
      .ok ([.num 1], [.num 1]) ∧
    [Json.num 1] = [Json.num 1] ∧
    ∃ cs, fetchPageChunks singleArrayServer [] 100 1000 = .ok cs ∧
      [Json.num 1] = cs.flatten :=
  c10_fetchReset singleArrayServer [] 100 1000 [Json.null] [] _ _ rfl

/-- Extracting from a full page yields its `data` array. -/
theorem extract_fullPage (pageSize : Nat) :
    extractDataFromResponse (fullPageResponse pageSize) =
      .ok (List.replicate pageSize (.str ("rec"))) := rfl

/-- Detecting pagination in a full page finds only `hasMore: true`. -/
theorem detect_fullPage (pageSize : Nat) :
    detectPaginationInfo (fullPageResponse pageSize) =
      .ok { has_pagination := true, total_pages := none, total_records := none,
            current_page := none, page_size := none, has_more := .bool true } := rfl

/-- Against the unlimited-full-pages server the page loop never meets a
stop condition: it consumes its whole iteration budget, appending
`pageSize` records per iteration. -/
theorem fetchLoopGo_unlimited (basePayload : List (String × Json))
    (pageSize : Nat) (hps : 0 < pageSize) :
    ∀ (fuel page : Nat) (all_data : List Json),
      fetchLoopGo (unlimitedServer pageSize) basePayload pageSize fuel page all_data =
        .ok (all_data ++ List.replicate (fuel * pageSize) (.str ("rec"))) := by
  intro fuel
  induction fuel with
  | zero => intro page all_data; simp [fetchLoopGo]
  | succ fuel ih =>
    intro page all_data
    simp only [fetchLoopGo]
    rw [show unlimitedServer pageSize
        (preparePaginationPayload basePayload (page + 1) pageSize) =
      .ok (some (fullPageResponse pageSize)) from rfl]
    dsimp only
    rw [show (fullPageResponse pageSize).truthy = true from rfl]
    simp only [Bool.not_true, Bool.false_eq_true, if_false]
    rw [extract_fullPage]
    dsimp only
    have hne : (List.replicate pageSize (Json.str ("rec"))).isEmpty = false := by
      cases pageSize with
      | zero => exact absurd hps (lt_irrefl 0)
      | succ m => rfl
    simp only [hne, Bool.false_eq_true, if_false]
    simp only [List.length_replicate, lt_self_iff_false, if_false]
    rw [detect_fullPage]
    dsimp only
    rw [ih]
    have harith : (fuel + 1) * pageSize = pageSize + fuel * pageSize := by ring
    rw [harith, List.replicate_add, List.append_assoc]
    rfl

/-- Against the unlimited-full-pages server a whole fetch collects the
first page plus one full page per loop iteration: exactly
`pageSize + maxPages * pageSize` records, with no cap on the collected
count and no truncation flag in the result. -/
theorem fetchAllDataUnlimited (basePayload : List (String × Json))
    (pageSize maxPages : Nat) (a0 : List Json) (hps : 0 < pageSize) :
    fetchAllData (unlimitedServer pageSize) basePayload pageSize maxPages a0 =
      .ok (List.replicate (pageSize + maxPages * pageSize) (.str ("rec")),
        List.replicate (pageSize + maxPages * pageSize) (.str ("rec"))) := by
  unfold fetchAllData
  rw [show unlimitedServer pageSize
      (preparePaginationPayload basePayload 0 pageSize) =
    .ok (some (fullPageResponse pageSize)) from rfl]
  dsimp only
  rw [extract_fullPage]
  dsimp only
  rw [detect_fullPage]
  dsimp only
  simp only [Bool.not_true, List.length_replicate, lt_self_iff_false,
    decide_False, Bool.or_false, Bool.false_eq_true, if_false]
  rw [fetchLoopGo_unlimited basePayload pageSize hps maxPages 0]
  simp [← List.replicate_add]

/-- C9 (amended): the page loop has no collected-count cap and the result
carries no `truncated` flag (it is a bare list).  Its only own bound is
the page counter: against a server producing unlimited full pages
(`hasMore: true`, no total-pages key) the fetch stops only by exhausting
`max_pages` loop iterations, having collected exactly
`pageSize * (maxPages + 1)` records — the first page plus `maxPages` loop
pages. -/
theorem c9_amended (basePayload : List (String × Json))
    (pageSize maxPages : Nat) (a0 : List Json) (hps : 0 < pageSize) :
    fetchAllData (unlimitedServer pageSize) basePayload pageSize maxPages a0 =
      .ok (List.replicate (pageSize * (maxPages + 1)) (.str ("rec")),
        List.replicate (pageSize * (maxPages + 1)) (.str ("rec"))) := by
  have h := fetchAllDataUnlimited basePayload pageSize maxPages a0 hps
  have harith : pageSize * (maxPages + 1) = pageSize + maxPages * pageSize := by
    ring
  rw [harith]
  exact h

/-- C9 (witness): two-record pages, three loop iterations: eight records
collected. -/
theorem c9_witness :
    0 < 2 ∧
    fetchAllData (unlimitedServer 2) [] 2 3 [] =
      .ok (List.replicate 8 (Json.str ("rec")), List.replicate 8 (Json.str ("rec"))) := by
  refine ⟨by decide, ?_⟩
  have h := c9_amended [] 2 3 [] (by decide)
  simpa using h

/-- C9 (counterexample): with the source defaults `page_size = 100` and
`max_pages = 1000` and the spec's `safeTotalCap = 20000`, the fetch against
unlimited full pages collects 100100 records — far outside the claimed
interval `[safeTotalCap, safeTotalCap + pageSize)`, because no
collected-count stop condition exists. -/
theorem c9_counterexample :
    fetchAllData (unlimitedServer 100) [] 100 1000 [] =
      .ok (List.replicate 100100 (Json.str ("rec")),
        List.replicate 100100 (Json.str ("rec"))) ∧
    ¬ (20000 ≤ 100100 ∧ 100100 < 20000 + 100) := by
  constructor
  · have h := fetchAllDataUnlimited [] 100 1000 [] (by decide)
    have harith : (100 : Nat) + 1000 * 100 = 100100 := by norm_num
    rw [harith] at h
    exact h
  · omega

end Scraper
